import Mathlib

/-!
Verification of the Sharp IoT device-status protocol core, shallowly embedded
from the Python sources:
  * `sharp_core/states.py`        — state enumerations and bucketing parsers
  * `sharp_devices/device_control.py`    — command/operation model and the
    binary field encoder `DeviceStatusCommand.build_payload`
  * `sharp_devices/device_properties.py` — `F1Property`/`F2Property`/`F3Property`
    decoders
  * `sharp_iot/lib/sharp_devices/operations.py` — the submit-and-poll
    execution engine `SharpOperations.execute_operation`

Python strings are embedded as `List Char`; Python `bytes` as `List Nat`
(each entry a byte value); `raise ValueError` as `Except Err`; Python `Enum`
value lookup as `find?` over the member list in declaration order.
-/

instance {ε α : Type} [DecidableEq ε] [DecidableEq α] : DecidableEq (Except ε α) :=
  fun x y =>
    match x, y with
    | .ok a, .ok b =>
      if h : a = b then .isTrue (by rw [h]) else .isFalse (by simp [h])
    | .error a, .error b =>
      if h : a = b then .isTrue (by rw [h]) else .isFalse (by simp [h])
    | .ok _, .error _ => .isFalse (by simp)
    | .error _, .ok _ => .isFalse (by simp)

namespace Sharp

/-- Convert a string literal to the `List Char` representation used throughout. -/
def hs (s : String) : List Char := s.data

/-- ASCII whitespace as stripped by Python's `str.strip` (restricted to the
byte range; all characters involved in the protocol are printable ASCII). -/
def isWS (c : Char) : Bool :=
  c = ' ' ∨ c = '\t' ∨ c = '\n' ∨ c = '\r' ∨ c = '\x0b' ∨ c = '\x0c' ∨
  c = '\x1c' ∨ c = '\x1d' ∨ c = '\x1e' ∨ c = '\x1f'

/-- Model of Python `str.strip()`: remove leading and trailing whitespace. -/
def pyStrip (s : List Char) : List Char :=
  ((s.dropWhile isWS).reverse.dropWhile isWS).reverse

/-- Strings made of printable ASCII other than space; on these `str.strip`
is the identity. -/
def noWS (s : List Char) : Prop := ∀ c ∈ s, 32 < c.toNat ∧ c.toNat < 127

instance (s : List Char) : Decidable (noWS s) := by
  unfold noWS; infer_instance

theorem isWS_false_of_printable (c : Char) (h1 : 32 < c.toNat) (h2 : c.toNat < 127) :
    isWS c = false := by
  by_contra hx
  rw [Bool.not_eq_false] at hx
  simp only [isWS, Bool.or_eq_true, decide_eq_true_eq] at hx
  rcases hx with h | h | h | h | h | h | h | h | h | h <;>
    (subst h; revert h1 h2; decide)

theorem pyStrip_id (s : List Char) (h : noWS s) : pyStrip s = s := by
  have h1 : s.dropWhile isWS = s := by
    apply List.dropWhile_eq_self_iff.mpr
    intro hne
    have := h _ ((List.getElem_mem hne))
    simp [isWS_false_of_printable _ this.1 this.2]
  have h2 : s.reverse.dropWhile isWS = s.reverse := by
    apply List.dropWhile_eq_self_iff.mpr
    intro hne
    have hlt : s.length - 1 < s.length := by
      simp only [List.length_reverse] at hne; omega
    have := h _ ((List.getElem_mem hlt))
    simp [isWS_false_of_printable _ this.1 this.2]
  unfold pyStrip
  rw [h1, h2, List.reverse_reverse]

/-- Value of one hexadecimal digit, `none` for a non-hex character. -/
def hexVal (c : Char) : Option Nat :=
  if '0' ≤ c ∧ c ≤ '9' then some (c.toNat - 48)
  else if 'a' ≤ c ∧ c ≤ 'f' then some (c.toNat - 87)
  else if 'A' ≤ c ∧ c ≤ 'F' then some (c.toNat - 55)
  else none

/-- Model of Python `bytes.fromhex` on whitespace-free input: pairs of hex
digits become bytes; an odd-length string or a non-hex character fails. -/
def pyFromHex : List Char → Option (List Nat)
  | [] => some []
  | [_] => none
  | c1 :: c2 :: rest => do
    let hi ← hexVal c1
    let lo ← hexVal c2
    let bs ← pyFromHex rest
    pure ((16 * hi + lo) :: bs)

/-- Python slice `l[a:b]` (for `0 ≤ a ≤ b`). -/
def pySlice (l : List α) (a b : Nat) : List α := (l.drop a).take (b - a)

/-- Python `int.from_bytes(bs, 'big')`. -/
def intFromBytesBE (bs : List Nat) : Nat := bs.foldl (fun acc b => acc * 256 + b) 0

/-- Python `int.from_bytes(bs, 'little')`. -/
def intFromBytesLE (bs : List Nat) : Nat := intFromBytesBE bs.reverse

/-! ## State enumerations (`sharp_core/states.py`) -/

inductive PowerState | OFF | ON
  deriving DecidableEq, Fintype

/-- The 2-hex-character wire code of each `PowerState` member. -/
def PowerState.value : PowerState → List Char
  | .OFF => hs "00"
  | .ON => hs "FF"

/-- Member list in declaration order, used to model Python `Enum(value)` lookup. -/
def PowerState.members : List PowerState := [.OFF, .ON]

/-- Python `PowerState(code)`: the member with this value, if any. -/
def PowerState.fromCode (c : List Char) : Option PowerState :=
  PowerState.members.find? (fun m => m.value = c)

inductive OperatingMode
  | OFF | LOW | MED | MAX | AUTO | POLLEN | ION_SHOWER | SLEEP | SHARP_LIFE_AIR
  deriving DecidableEq, Fintype

def OperatingMode.value : OperatingMode → List Char
  | .OFF => hs "00"
  | .LOW => hs "14"
  | .MED => hs "15"
  | .MAX => hs "16"
  | .AUTO => hs "10"
  | .POLLEN => hs "13"
  | .ION_SHOWER => hs "40"
  | .SLEEP => hs "11"
  | .SHARP_LIFE_AIR => hs "20"

def OperatingMode.members : List OperatingMode :=
  [.OFF, .LOW, .MED, .MAX, .AUTO, .POLLEN, .ION_SHOWER, .SLEEP, .SHARP_LIFE_AIR]

def OperatingMode.fromCode (c : List Char) : Option OperatingMode :=
  OperatingMode.members.find? (fun m => m.value = c)

inductive HumidificationState | OFF | ON
  deriving DecidableEq, Fintype

def HumidificationState.value : HumidificationState → List Char
  | .OFF => hs "00"
  | .ON => hs "FF"

def HumidificationState.members : List HumidificationState := [.OFF, .ON]

def HumidificationState.fromCode (c : List Char) : Option HumidificationState :=
  HumidificationState.members.find? (fun m => m.value = c)

inductive LEDBrightnessState | OFF | DIM | AUTO
  deriving DecidableEq, Fintype

def LEDBrightnessState.value : LEDBrightnessState → List Char
  | .OFF => hs "00"
  | .DIM => hs "10"
  | .AUTO => hs "F0"

def LEDBrightnessState.members : List LEDBrightnessState := [.OFF, .DIM, .AUTO]

def LEDBrightnessState.fromCode (c : List Char) : Option LEDBrightnessState :=
  LEDBrightnessState.members.find? (fun m => m.value = c)

inductive ChildLockState | OFF | ON
  deriving DecidableEq, Fintype

def ChildLockState.value : ChildLockState → List Char
  | .OFF => hs "00"
  | .ON => hs "FF"

def ChildLockState.members : List ChildLockState := [.OFF, .ON]

def ChildLockState.fromCode (c : List Char) : Option ChildLockState :=
  ChildLockState.members.find? (fun m => m.value = c)

inductive QualityLevel | CLEAN | LOW | MEDIUM | HIGH | VERY_HIGH
  deriving DecidableEq

/-- `QualityLevel.parse` from `sharp_core/states.py`. -/
def QualityLevel.parse (int_value : Int) : QualityLevel :=
  if int_value > 75 then .VERY_HIGH
  else if 56 ≤ int_value ∧ int_value ≤ 75 then .HIGH
  else if 36 ≤ int_value ∧ int_value < 56 then .MEDIUM
  else if 16 ≤ int_value ∧ int_value < 36 then .LOW
  else .CLEAN

inductive WaterContainerState | UNKNOWN | FULL | EMPTY
  deriving DecidableEq

/-- `WaterContainerState.parse` from `sharp_core/states.py`. -/
def WaterContainerState.parse (int_value : Int) : WaterContainerState :=
  if int_value = 0 then .UNKNOWN
  else if int_value = 1 then .FULL
  else if int_value = 2 then .EMPTY
  else .UNKNOWN

/-! ## Errors

Every `raise ValueError(...)` in the sources becomes one constructor here. -/

inductive Err
  | invalidHeaderLength (got : Nat)
  | invalidPosition (got : Int)
  | valueOverflow (position : Int)
  | emptyOperationList
  | invalidBlobLength (got : Nat)
  | invalidHexString
  | invalidEnumCode
  deriving DecidableEq

/-! ## Binary field encoder (`device_control.py`, `DeviceStatusCommand.build_payload`) -/

/-- The loop `for i, char in enumerate(value): payload_chars[position + i] = char`. -/
def writeValue (chars : List Char) (pos : Nat) : List Char → List Char
  | [] => chars
  | c :: rest => writeValue (chars.set pos c) (pos + 1) rest

/-- `DeviceStatusCommand.build_payload`: validate header length, position and
value extent, then write `value` over a 46-character area of `'0'`s and
produce `header ++ field area` (54 characters in total). -/
def build_payload (header : List Char) (position : Int) (value : List Char) :
    Except Err (List Char) :=
  if header.length ≠ 8 then .error (.invalidHeaderLength header.length)
  else if position < 0 ∨ 46 ≤ position then .error (.invalidPosition position)
  else if position + value.length > 46 then .error (.valueOverflow position)
  else .ok (header ++ writeValue (List.replicate 46 '0') position.toNat value)

/-! ## Command / operation model (`device_control.py`) -/

inductive ValueKind | valueSingle | valueBinary
  deriving DecidableEq

/-- The wire payload dict
`\x7b"statusCode": sc, "valueType": vt, vt: \x7b"code": code\x7d\x7d`. -/
structure StatusPayload where
  statusCode : List Char
  valueType : ValueKind
  code : List Char
  deriving DecidableEq

/-- The concrete `DeviceStatusCommand` subclasses. -/
inductive DeviceCmd
  | changeMode (mode : OperatingMode)
  | humidification (state : HumidificationState)
  | ledBrightness (state : LEDBrightnessState)
  | childLock (state : ChildLockState)
  | powerState (state : PowerState)
  deriving DecidableEq

def DeviceCmd.get_header : DeviceCmd → List Char
  | .changeMode _ => hs "01000000"
  | .humidification _ => hs "00080000"
  | .ledBrightness _ => hs "00004000"
  | .childLock _ => hs "00400000"
  | .powerState _ => hs "00020000"

def DeviceCmd.get_payload_position : DeviceCmd → Int
  | .changeMode _ => 0
  | .humidification _ => 22
  | .ledBrightness _ => 44
  | .childLock _ => 28
  | .powerState _ => 18

def DeviceCmd.get_payload_value : DeviceCmd → List Char
  | .changeMode m => m.value
  | .humidification s => s.value
  | .ledBrightness s => s.value
  | .childLock s => s.value
  | .powerState s => s.value

/-- `build_payload` of a concrete device status command. -/
def DeviceCmd.build_payload (c : DeviceCmd) : Except Err (List Char) :=
  Sharp.build_payload c.get_header c.get_payload_position c.get_payload_value

/-- The concrete `Command` subclasses: `SingleCommand` and the
`DeviceStatusCommand` family (all of which use status code `"F3"` and the
`valueBinary` encoding). -/
inductive Cmd
  | single (status_code : List Char) (value : List Char)
  | device (c : DeviceCmd)
  deriving DecidableEq

/-- `Command.get_status_payload`, propagating `build_payload` failures. -/
def Cmd.get_status_payload : Cmd → Except Err StatusPayload
  | .single sc v => .ok ⟨sc, .valueSingle, v⟩
  | .device c => c.build_payload.map fun blob => ⟨hs "F3", .valueBinary, blob⟩

/-- `_PowerCommand`: status code `"80"`, value `"30"` for ON and `"31"` for OFF. -/
def powerCommand (state : PowerState) : Cmd :=
  .single (hs "80") (hs (if state = PowerState.ON then "30" else "31"))

/-- The `Operation` subclasses relevant to the claims: an `OperationList`
wrapping commands, and `RefreshStateOperation`. -/
inductive Operation
  | opList (commands : List Cmd)
  | refreshState
  deriving DecidableEq

/-- The `OperationList` constructor: rejects an empty command list. -/
def operationListMk (commands : List Cmd) : Except Err Operation :=
  if commands.isEmpty then .error .emptyOperationList
  else .ok (.opList commands)

/-- `[command.get_status_payload() for command in self.commands]`: payloads in
order, the first failure propagating. -/
def statusListOf : List Cmd → Except Err (List StatusPayload)
  | [] => .ok []
  | c :: rest => do
    let p ← c.get_status_payload
    let ps ← statusListOf rest
    pure (p :: ps)

/-- `Operation.get_status_list`. -/
def Operation.get_status_list : Operation → Except Err (List StatusPayload)
  | .opList commands => statusListOf commands
  | .refreshState => .ok []

/-- `PowerOperation(state)`: the fixed two-command `OperationList`. -/
def PowerOperation (state : PowerState) : Operation :=
  .opList [.device (.powerState state), powerCommand state]

/-! ## Property decoders (`device_properties.py`) -/

structure F1Property where
  temperature : Nat
  humidity : Nat
  pm25_level : Nat
  deriving DecidableEq

/-- `F1Property.from_hex`: strip, `bytes.fromhex`, then read fixed byte slices.
Python's slicing silently yields `b''` past the end of the data and
`int.from_bytes(b'') == 0`, so no length validation happens here. -/
def F1Property.from_hex (hex_string : List Char) : Except Err F1Property :=
  match pyFromHex (pyStrip hex_string) with
  | none => .error .invalidHexString
  | some data => .ok
      { temperature := intFromBytesBE (pySlice data 3 4)
        humidity := intFromBytesBE (pySlice data 4 5)
        pm25_level := intFromBytesLE (pySlice data 28 30) }

structure F2Property where
  air_quality : QualityLevel
  dust_level : QualityLevel
  odor_level : QualityLevel
  water_container : WaterContainerState
  deriving DecidableEq

/-- `F2Property.from_hex`: strip, `bytes.fromhex`, then bucket fixed byte
slices; like `F1Property.from_hex` it performs no length validation. -/
def F2Property.from_hex (hex_string : List Char) : Except Err F2Property :=
  match pyFromHex (pyStrip hex_string) with
  | none => .error .invalidHexString
  | some data => .ok
      { air_quality := QualityLevel.parse (intFromBytesBE (pySlice data 17 18))
        dust_level := QualityLevel.parse (intFromBytesBE (pySlice data 15 16))
        odor_level := QualityLevel.parse (intFromBytesBE (pySlice data 14 15))
        water_container := WaterContainerState.parse (intFromBytesBE (pySlice data 18 19)) }

structure F3Property where
  operating_mode : OperatingMode
  humidification : HumidificationState
  power : PowerState
  child_lock : ChildLockState
  led_brightness : LEDBrightnessState
  deriving DecidableEq

/-- `F3Property.from_hex`: strip, require exactly 54 characters, drop the
8-character header, then look up the enumeration codes at the fixed
field-area slices `[0:2]`, `[22:24]`, `[18:20]`, `[28:30]`, `[44:46]`
(a lookup failure models the `ValueError` that Python's `Enum(value)` raises). -/
def F3Property.from_hex (hex_string : List Char) : Except Err F3Property :=
  let s := pyStrip hex_string
  if s.length ≠ 54 then .error (.invalidBlobLength s.length)
  else
    let payload := s.drop 8
    match OperatingMode.fromCode (pySlice payload 0 2),
        HumidificationState.fromCode (pySlice payload 22 24),
        PowerState.fromCode (pySlice payload 18 20),
        ChildLockState.fromCode (pySlice payload 28 30),
        LEDBrightnessState.fromCode (pySlice payload 44 46) with
    | some m, some hm, some p, some cl, some led => .ok ⟨m, hm, p, cl, led⟩
    | _, _, _, _, _ => .error .invalidEnumCode

/-! ## Execution engine (`operations.py`, `SharpOperations.execute_operation`)

The polling phase is modelled with the poll responses as an injected
sequence: each loop iteration consumes the next response (a missing entry
counts as "no result yet"). `runPoll` returns which terminal branch of the
source loop fired together with the number of poll requests made. -/

/-- One poll response: either no entry in `resultList`, or an entry with its
`status` and `errorCode` fields (each possibly absent). -/
inductive PollResponse
  | noResult
  | result (status : Option String) (errorCode : Option String)
  deriving DecidableEq

/-- Terminal branches of the polling loop. -/
inductive ExecOutcome
  | success
  | deviceError (code : Option String)
  | timeout
  deriving DecidableEq

/-- The `for i in range(10)` polling loop: `fuel` is the number of
remaining iterations. Returns the terminal branch and the number of poll
requests issued. -/
def runPoll : List PollResponse → Nat → ExecOutcome × Nat
  | _, 0 => (.timeout, 0)
  | rs, fuel + 1 =>
    match rs.headD .noResult with
    | .noResult =>
      let r := runPoll rs.tail fuel
      (r.1, r.2 + 1)
    | .result status errorCode =>
      if status = some "error" then (.deviceError errorCode, 1)
      else if errorCode = none ∧ (status = some "unmatch" ∨ status = some "success") then
        (.success, 1)
      else
        let r := runPoll rs.tail fuel
        (r.1, r.2 + 1)

/-- The polling phase of `execute_operation` with its fixed budget of 10 attempts. -/
def executeSim (rs : List PollResponse) : ExecOutcome × Nat := runPoll rs 10

/-- The boolean `execute_operation` actually returns for each terminal branch:
`True` only on the success branch. -/
def outcomeReturn : ExecOutcome → Bool
  | .success => true
  | .deviceError _ => false
  | .timeout => false

/-- The value `execute_operation` returns to its caller: `False` when the
submission fails or yields no operation id, otherwise the boolean of the
polling phase's terminal branch. -/
def execute_operation_result (submitOk : Bool) (rs : List PollResponse) : Bool :=
  if submitOk then outcomeReturn (executeSim rs).1 else false

/-! ## Helper lemmas -/

theorem writeValue_length : ∀ (v chars : List Char) (pos : Nat),
    (writeValue chars pos v).length = chars.length
  | [], _, _ => rfl
  | c :: rest, chars, pos => by
    rw [writeValue, writeValue_length rest, List.length_set]

theorem writeValue_eq_append : ∀ (v chars : List Char) (pos : Nat),
    pos + v.length ≤ chars.length →
    writeValue chars pos v = chars.take pos ++ v ++ chars.drop (pos + v.length)
  | [], chars, pos, _ => by
    simp [writeValue]
  | c :: rest, chars, pos, h => by
    have hlen : rest.length + 1 = (c :: rest).length := rfl
    have hlt : pos < chars.length := by
      simp only [List.length_cons] at h; omega
    have htk : (chars.take pos).length = pos := by
      rw [List.length_take]; omega
    have h' : (pos + 1) + rest.length ≤ (chars.set pos c).length := by
      rw [List.length_set]; simp only [List.length_cons] at h; omega
    rw [writeValue, writeValue_eq_append rest (chars.set pos c) (pos + 1) h',
      List.set_eq_take_cons_drop c hlt]
    have e1 : (chars.take pos ++ c :: chars.drop (pos + 1)).take (pos + 1) =
        chars.take pos ++ [c] := by
      rw [show pos + 1 = (chars.take pos).length + 1 by omega, List.take_append]
      simp
    have e2 : (chars.take pos ++ c :: chars.drop (pos + 1)).drop (pos + 1 + rest.length) =
        chars.drop (pos + (c :: rest).length) := by
      rw [show pos + 1 + rest.length = (chars.take pos).length + (rest.length + 1) by omega,
        List.drop_append, List.drop_succ_cons, List.drop_drop]
      simp only [List.length_cons]
      congr 1
      omega
    rw [e1, e2]
    simp [List.append_assoc]

theorem statusListOf_ok : ∀ (cs : List Cmd) (ps : List StatusPayload),
    statusListOf cs = .ok ps →
    ps.length = cs.length ∧
      ∀ i (h1 : i < cs.length) (h2 : i < ps.length),
        (cs.get ⟨i, h1⟩).get_status_payload = .ok (ps.get ⟨i, h2⟩)
  | [], ps, h => by
    simp only [statusListOf, Except.ok.injEq] at h
    subst h
    exact ⟨rfl, fun i h1 _ => absurd h1 (Nat.not_lt_zero i)⟩
  | c :: rest, ps, h => by
    simp only [statusListOf, bind, Except.bind] at h
    cases hc : c.get_status_payload with
    | error e => rw [hc] at h; exact absurd h (by simp)
    | ok p =>
      rw [hc] at h
      cases hr : statusListOf rest with
      | error e => rw [hr] at h; exact absurd h (by simp [pure, Except.pure])
      | ok ps' =>
        rw [hr] at h
        simp only [pure, Except.pure, Except.ok.injEq] at h
        subst h
        obtain ⟨hlen, hget⟩ := statusListOf_ok rest ps' hr
        refine ⟨by simp [hlen], fun i h1 h2 => ?_⟩
        match i with
        | 0 => simpa using hc
        | j + 1 =>
          simp only [List.get_cons_succ]
          exact hget j (by simpa using h1) (by simpa using h2)

/-! ## Claim theorems -/

/-- C2: with the poll responses injected as a sequence, the execution
engine's polling loop terminates in the success branch after exactly 3 poll
attempts on `[no-result, no-result, success]`; in the device-error branch
carrying code `"E1"` after exactly 1 poll attempt when the first response is
an error; and in the timeout branch after exactly 10 poll attempts on 10
consecutive no-result responses. -/
theorem execute_poll_simulation :
    executeSim [.noResult, .noResult, .result (some "success") none] = (.success, 3)
    ∧ executeSim [.result (some "error") (some "E1")] = (.deviceError (some "E1"), 1)
    ∧ executeSim (List.replicate 10 .noResult) = (.timeout, 10) := by
  decide

/-- C4 (counterexample): the value `execute_operation` returns to its caller
after a device error (`status:"error"`, code `"E1"` on the first poll) is the
very same `false` it returns after 10 exhausted poll attempts — the two
outcomes are not distinguishable by the caller, contradicting the claim. -/
theorem execute_error_timeout_same_result :
    execute_operation_result true [.result (some "error") (some "E1")] =
      execute_operation_result true (List.replicate 10 .noResult)
    ∧ execute_operation_result true [.result (some "error") (some "E1")] = false
    ∧ execute_operation_result true (List.replicate 10 .noResult) = false := by
  decide

/-- C4 (amended): `execute_operation` reports only a single boolean to the
caller: `true` exactly when the polling loop reached its success branch (and
the submission succeeded); device error, timeout and submission failure all
yield the same `false` and are distinguished only in log output, not in the
returned value. -/
theorem execute_returns_single_boolean (submitOk : Bool) (rs : List PollResponse) :
    execute_operation_result submitOk rs = true ↔
      submitOk = true ∧ (executeSim rs).1 = .success := by
  cases submitOk
  · simp [execute_operation_result]
  · simp only [execute_operation_result, if_pos rfl]
    cases h : (executeSim rs).1 <;> simp [outcomeReturn]

/-- C5: for each `PowerState`, `PowerOperation(state).get_status_list()` is
exactly the two-element sequence consisting of the binary F3 payload whose
54-character blob carries the power field code (`"FF"` for ON, `"00"` for
OFF) at field-area position 18 (blob characters 26–28) with every other
field-area character `'0'`, followed by the single-value payload with status
code `"80"` and value `"30"` for ON or `"31"` for OFF — in that order. -/
theorem power_operation_status_list :
    (PowerOperation .ON).get_status_list =
      .ok [⟨hs "F3", .valueBinary, hs "00020000000000000000000000FF00000000000000000000000000"⟩,
        ⟨hs "80", .valueSingle, hs "30"⟩]
    ∧ (PowerOperation .OFF).get_status_list =
      .ok [⟨hs "F3", .valueBinary, hs "000200000000000000000000000000000000000000000000000000"⟩,
        ⟨hs "80", .valueSingle, hs "31"⟩]
    ∧ (hs "00020000000000000000000000FF00000000000000000000000000").length = 54
    ∧ (hs "000200000000000000000000000000000000000000000000000000").length = 54
    ∧ pySlice ((hs "00020000000000000000000000FF00000000000000000000000000").drop 8) 18 20 =
        PowerState.ON.value
    ∧ pySlice ((hs "000200000000000000000000000000000000000000000000000000").drop 8) 18 20 =
        PowerState.OFF.value
    ∧ (∀ j, j < 46 → j < 18 ∨ 20 ≤ j →
        ((hs "00020000000000000000000000FF00000000000000000000000000").drop 8).getD j 'x' = '0')
    ∧ (∀ j, j < 46 → j < 18 ∨ 20 ≤ j →
        ((hs "000200000000000000000000000000000000000000000000000000").drop 8).getD j 'x' = '0') := by
  decide

/-- C5 (witness): the non-power field-area characters of the ON blob are
`'0'`, instantiating the bounded quantifier of the claim theorem at `j = 0`. -/
theorem power_operation_status_list_witness :
    ((hs "00020000000000000000000000FF00000000000000000000000000").drop 8).getD 0 'x' = '0' :=
  power_operation_status_list.2.2.2.2.2.2.1 0 (by decide) (Or.inl (by decide))

/-- C9: `QualityLevel.parse` buckets every integer exactly as specified —
`v > 75 → VERY_HIGH`, `56 ≤ v ≤ 75 → HIGH`, `36 ≤ v < 56 → MEDIUM`,
`16 ≤ v < 36 → LOW`, otherwise (`v < 16`) `CLEAN` — and the boundary inputs
15, 16, 35, 36, 55, 56, 75, 76 map to CLEAN, LOW, LOW, MEDIUM, MEDIUM,
HIGH, HIGH, VERY_HIGH respectively. -/
theorem quality_level_parse_buckets :
    (∀ v : Int, 75 < v → QualityLevel.parse v = .VERY_HIGH)
    ∧ (∀ v : Int, 56 ≤ v → v ≤ 75 → QualityLevel.parse v = .HIGH)
    ∧ (∀ v : Int, 36 ≤ v → v < 56 → QualityLevel.parse v = .MEDIUM)
    ∧ (∀ v : Int, 16 ≤ v → v < 36 → QualityLevel.parse v = .LOW)
    ∧ (∀ v : Int, v < 16 → QualityLevel.parse v = .CLEAN)
    ∧ QualityLevel.parse 15 = .CLEAN ∧ QualityLevel.parse 16 = .LOW
    ∧ QualityLevel.parse 35 = .LOW ∧ QualityLevel.parse 36 = .MEDIUM
    ∧ QualityLevel.parse 55 = .MEDIUM ∧ QualityLevel.parse 56 = .HIGH
    ∧ QualityLevel.parse 75 = .HIGH ∧ QualityLevel.parse 76 = .VERY_HIGH := by
  refine ⟨fun v h => ?_, fun v h1 h2 => ?_, fun v h1 h2 => ?_, fun v h1 h2 => ?_,
    fun v h => ?_, by decide, by decide, by decide, by decide, by decide, by decide,
    by decide, by decide⟩ <;>
    (unfold QualityLevel.parse; split_ifs <;> first | rfl | omega)

/-- C6: `build_payload` fails exactly when the header length is not 8
(`invalidHeaderLength`), or the position is outside `[0, 46)`
(`invalidPosition`), or the value overruns the 46-character field area
(`valueOverflow`) — the checks firing in that order — and otherwise returns
the 8-character header followed by a 46-character field area, 54 characters
in total. -/
theorem build_payload_error_conditions (header : List Char) (position : Int)
    (value : List Char) :
    ((∃ e, build_payload header position value = .error e) ↔
      header.length ≠ 8 ∨ position < 0 ∨ 46 ≤ position ∨ 46 < position + value.length)
    ∧ (header.length ≠ 8 →
        build_payload header position value = .error (.invalidHeaderLength header.length))
    ∧ (header.length = 8 → (position < 0 ∨ 46 ≤ position) →
        build_payload header position value = .error (.invalidPosition position))
    ∧ (header.length = 8 → 0 ≤ position → position < 46 → 46 < position + value.length →
        build_payload header position value = .error (.valueOverflow position))
    ∧ (header.length = 8 → 0 ≤ position → position < 46 → position + value.length ≤ 46 →
        ∃ fieldArea, build_payload header position value = .ok (header ++ fieldArea)
          ∧ fieldArea.length = 46 ∧ (header ++ fieldArea).length = 54) := by
  unfold build_payload
  split_ifs with h1 h2 h3
  · exact ⟨by simp [h1], fun _ => rfl, fun h8 _ => absurd h8 h1,
      fun h8 _ _ _ => absurd h8 h1, fun h8 _ _ _ => absurd h8 h1⟩
  · refine ⟨⟨fun _ => ?_, fun _ => ⟨_, rfl⟩⟩, fun hne => absurd hne h1,
      fun _ _ => rfl, fun _ _ _ _ => by omega, fun _ _ _ _ => by omega⟩
    rcases h2 with h | h
    exacts [Or.inr (Or.inl h), Or.inr (Or.inr (Or.inl h))]
  · exact ⟨⟨fun _ => Or.inr (Or.inr (Or.inr h3)), fun _ => ⟨_, rfl⟩⟩,
      fun hne => absurd hne h1, fun _ hc => absurd hc h2,
      fun _ _ _ _ => rfl, fun _ _ _ _ => by omega⟩
  · refine ⟨⟨fun h => absurd h (by simp), fun hc => ?_⟩,
      fun hne => absurd hne h1, fun _ hc => absurd hc h2,
      fun _ _ _ _ => by omega, fun h8 _ _ _ => ?_⟩
    · rcases hc with h | h | h | h
      · exact absurd h h1
      · exact absurd (Or.inl h) h2
      · exact absurd (Or.inr h) h2
      · exact absurd h h3
    · refine ⟨writeValue (List.replicate 46 '0') position.toNat value, rfl, ?_, ?_⟩
      · rw [writeValue_length, List.length_replicate]
      · rw [List.length_append, writeValue_length, List.length_replicate, h8]

/-- C6 (witness): a 2-character header is rejected with `invalidHeaderLength`,
instantiating the error characterization at a concrete input. -/
theorem build_payload_error_conditions_witness :
    build_payload (hs "00") 0 (hs "14") = .error (.invalidHeaderLength 2) :=
  (build_payload_error_conditions (hs "00") 0 (hs "14")).2.1 (by decide)

/-- C1: for every 8-character header, every position `< 46` and every value
with `position + len(value) ≤ 46`, `build_payload` succeeds and the
resulting 54-character blob contains exactly `value` in the slice
`[8+position, 8+position+len(value))`, while every field-area character
outside that slice is `'0'`. -/
theorem build_payload_field_roundtrip (header : List Char) (pos : Nat) (value : List Char)
    (hh : header.length = 8) (hp : pos < 46) (hv : pos + value.length ≤ 46) :
    ∃ blob, build_payload header (pos : Int) value = .ok blob
      ∧ pySlice blob (8 + pos) (8 + pos + value.length) = value
      ∧ ∀ j, j < 46 → j < pos ∨ pos + value.length ≤ j → blob.getD (8 + j) 'x' = '0' := by
  have hW := writeValue_eq_append value (List.replicate 46 '0') pos
    (by rw [List.length_replicate]; omega)
  rw [List.take_replicate, List.drop_replicate, show pos ⊓ 46 = pos by omega,
    List.append_assoc] at hW
  refine ⟨header ++ writeValue (List.replicate 46 '0') pos value, ?_, ?_, ?_⟩
  · unfold build_payload
    rw [if_neg (by simp [hh]), if_neg (by omega), if_neg (by omega)]
    simp
  · rw [hW]
    unfold pySlice
    rw [show 8 + pos + value.length - (8 + pos) = value.length by omega,
      show 8 + pos = header.length + pos by rw [hh],
      List.drop_append,
      List.drop_left' (by rw [List.length_replicate]),
      List.take_left' rfl]
  · intro j hj hout
    rw [hW, List.getD_append_right header _ 'x' (8 + j) (by omega)]
    simp only [hh]
    rw [show 8 + j - 8 = j by omega]
    rcases hout with hlt | hge
    · rw [List.getD_append _ _ 'x' j (by rw [List.length_replicate]; omega),
        List.getD_eq_getElem _ _ (by rw [List.length_replicate]; omega),
        List.getElem_replicate]
    · rw [List.getD_append_right _ _ 'x' j (by rw [List.length_replicate]; omega),
        List.length_replicate,
        List.getD_append_right value _ 'x' (j - pos) (by omega),
        List.getD_eq_getElem _ _ (by rw [List.length_replicate]; omega),
        List.getElem_replicate]

/-- C1 (witness): the round trip instantiated at header `"01000000"`,
position 0 and value `"14"`. -/
theorem build_payload_field_roundtrip_witness :
    ∃ blob, build_payload (hs "01000000") ((0 : Nat) : Int) (hs "14") = .ok blob
      ∧ pySlice blob (8 + 0) (8 + 0 + (hs "14").length) = hs "14"
      ∧ ∀ j, j < 46 → j < 0 ∨ 0 + (hs "14").length ≤ j → blob.getD (8 + j) 'x' = '0' :=
  build_payload_field_roundtrip (hs "01000000") 0 (hs "14")
    (by decide) (by decide) (by decide)

/-- C8: `OperationList([])` fails with the construction error (before any
payload is built or sent), `RefreshStateOperation().get_status_list()` is
the empty sequence without error, and for every non-empty command list the
constructor succeeds and the resulting operation's status list is the
commands' payloads in construction order: same length, with the i-th
payload produced by the i-th command. -/
theorem operation_list_status_lists :
    operationListMk [] = .error .emptyOperationList
    ∧ Operation.refreshState.get_status_list = .ok []
    ∧ ∀ cs : List Cmd, cs ≠ [] →
        (∃ op, operationListMk cs = .ok op ∧ op.get_status_list = statusListOf cs)
        ∧ ∀ ps, statusListOf cs = .ok ps →
            ps.length = cs.length ∧
              ∀ i (h1 : i < cs.length) (h2 : i < ps.length),
                (cs.get ⟨i, h1⟩).get_status_payload = .ok (ps.get ⟨i, h2⟩) := by
  refine ⟨rfl, rfl, fun cs hne =>
    ⟨⟨.opList cs, ?_, rfl⟩, fun ps h => statusListOf_ok cs ps h⟩⟩
  unfold operationListMk
  rw [if_neg (by simpa [List.isEmpty_iff] using hne)]

/-- C8 (witness): the construction and payload order instantiated at the
one-command list `[_PowerCommand(ON)]`. -/
theorem operation_list_status_lists_witness :
    ∃ op, operationListMk [powerCommand .ON] = .ok op
      ∧ op.get_status_list = statusListOf [powerCommand .ON] :=
  (operation_list_status_lists.2.2 [powerCommand .ON] (by decide)).1

/-- C9 (witness): the bucket laws instantiated at 100, 60, 40, 20 and 0. -/
theorem quality_level_parse_buckets_witness :
    QualityLevel.parse 100 = .VERY_HIGH ∧ QualityLevel.parse 60 = .HIGH
    ∧ QualityLevel.parse 40 = .MEDIUM ∧ QualityLevel.parse 20 = .LOW
    ∧ QualityLevel.parse 0 = .CLEAN :=
  ⟨quality_level_parse_buckets.1 100 (by decide),
    quality_level_parse_buckets.2.1 60 (by decide) (by decide),
    quality_level_parse_buckets.2.2.1 40 (by decide) (by decide),
    quality_level_parse_buckets.2.2.2.1 20 (by decide) (by decide),
    quality_level_parse_buckets.2.2.2.2.1 0 (by decide)⟩

/-! ## Helper lemmas for the property decoders -/

theorem pyFromHex_eq_none_iff : ∀ s : List Char,
    pyFromHex s = none ↔ s.length % 2 = 1 ∨ ∃ c ∈ s, hexVal c = none
  | [] => by simp [pyFromHex]
  | [c] => by simp [pyFromHex]
  | c1 :: c2 :: rest => by
    have IH := pyFromHex_eq_none_iff rest
    have hmod : (c1 :: c2 :: rest).length % 2 = rest.length % 2 := by
      simp only [List.length_cons]; omega
    cases ha : hexVal c1 with
    | none =>
      refine iff_of_true (by simp [pyFromHex, ha]) (Or.inr ⟨c1, by simp, ha⟩)
    | some hi =>
      cases hb : hexVal c2 with
      | none =>
        refine iff_of_true (by simp [pyFromHex, ha, hb]) (Or.inr ⟨c2, by simp, hb⟩)
      | some lo =>
        cases hc : pyFromHex rest with
        | none =>
          refine iff_of_true (by simp [pyFromHex, ha, hb, hc]) ?_
          rcases IH.mp hc with h | ⟨c, hm, hv⟩
          · exact Or.inl (by omega)
          · exact Or.inr ⟨c, by simp [hm], hv⟩
        | some bs =>
          have hres : ¬(rest.length % 2 = 1 ∨ ∃ c ∈ rest, hexVal c = none) := by
            rw [← IH, hc]; simp
          refine iff_of_false (by simp [pyFromHex, ha, hb, hc]) ?_
          rintro (h | ⟨c, hm, hv⟩)
          · exact hres (Or.inl (by omega))
          · simp only [List.mem_cons] at hm
            rcases hm with rfl | rfl | hm
            · rw [ha] at hv; cases hv
            · rw [hb] at hv; cases hv
            · exact hres (Or.inr ⟨c, hm, hv⟩)

theorem f3_wrong_length_error (s : List Char) (hws : noWS s) (h : s.length ≠ 54) :
    F3Property.from_hex s = .error (.invalidBlobLength s.length) := by
  simp only [F3Property.from_hex, pyStrip_id s hws]
  rw [if_pos h]

theorem find_value_isSome {E : Type} (mem : List E) (val : E → List Char)
    (c : List Char) (hcomp : ∀ m : E, m ∈ mem) :
    (mem.find? (fun m => val m = c)).isSome ↔ ∃ m : E, val m = c := by
  rw [List.find?_isSome]
  constructor
  · rintro ⟨x, _, hx⟩
    exact ⟨x, by simpa using hx⟩
  · rintro ⟨m, hm⟩
    exact ⟨m, hcomp m, by simpa using hm⟩

theorem operatingMode_mem_members (m : OperatingMode) : m ∈ OperatingMode.members := by
  cases m <;> decide

theorem humidificationState_mem_members (m : HumidificationState) :
    m ∈ HumidificationState.members := by
  cases m <;> decide

theorem powerState_mem_members (m : PowerState) : m ∈ PowerState.members := by
  cases m <;> decide

theorem childLockState_mem_members (m : ChildLockState) : m ∈ ChildLockState.members := by
  cases m <;> decide

theorem ledBrightnessState_mem_members (m : LEDBrightnessState) :
    m ∈ LEDBrightnessState.members := by
  cases m <;> decide

theorem operatingMode_fromCode_isSome (c : List Char) :
    (OperatingMode.fromCode c).isSome ↔ ∃ m : OperatingMode, m.value = c :=
  find_value_isSome OperatingMode.members OperatingMode.value c operatingMode_mem_members

theorem humidificationState_fromCode_isSome (c : List Char) :
    (HumidificationState.fromCode c).isSome ↔ ∃ m : HumidificationState, m.value = c :=
  find_value_isSome HumidificationState.members HumidificationState.value c
    humidificationState_mem_members

theorem powerState_fromCode_isSome (c : List Char) :
    (PowerState.fromCode c).isSome ↔ ∃ m : PowerState, m.value = c :=
  find_value_isSome PowerState.members PowerState.value c powerState_mem_members

theorem childLockState_fromCode_isSome (c : List Char) :
    (ChildLockState.fromCode c).isSome ↔ ∃ m : ChildLockState, m.value = c :=
  find_value_isSome ChildLockState.members ChildLockState.value c childLockState_mem_members

theorem ledBrightnessState_fromCode_isSome (c : List Char) :
    (LEDBrightnessState.fromCode c).isSome ↔ ∃ m : LEDBrightnessState, m.value = c :=
  find_value_isSome LEDBrightnessState.members LEDBrightnessState.value c
    ledBrightnessState_mem_members

/-- C3 (counterexample): `F1Property.from_hex` and `F2Property.from_hex`
accept the empty (certainly wrong-length) binary value without any error and
silently return a default-valued snapshot — `F1(0, 0, 0)` and
`F2(CLEAN, CLEAN, CLEAN, UNKNOWN)` — because Python's byte slicing yields
`b''` past the end of the data and `int.from_bytes(b'') == 0`. -/
theorem f1_f2_empty_decode_defaults :
    F1Property.from_hex (hs "") = .ok ⟨0, 0, 0⟩
    ∧ F2Property.from_hex (hs "") = .ok ⟨.CLEAN, .CLEAN, .CLEAN, .UNKNOWN⟩ := by
  decide

/-- C3 (amended): only `F3Property.from_hex` validates length — it fails for
every whitespace-free input whose length is not 54. `F1Property.from_hex`
and `F2Property.from_hex` fail exactly when the value is not valid hex (odd
length or a non-hex character); any valid-hex value, of whatever length,
decodes without error, with out-of-range byte reads silently producing
default values. -/
theorem property_decoders_length_validation :
    (∀ s, noWS s → s.length ≠ 54 →
      F3Property.from_hex s = .error (.invalidBlobLength s.length))
    ∧ (∀ s, noWS s → s.length % 2 = 1 ∨ (∃ c ∈ s, hexVal c = none) →
        F1Property.from_hex s = .error .invalidHexString
        ∧ F2Property.from_hex s = .error .invalidHexString)
    ∧ (∀ s, noWS s → s.length % 2 = 0 → (∀ c ∈ s, hexVal c ≠ none) →
        (∃ p, F1Property.from_hex s = .ok p) ∧ ∃ p, F2Property.from_hex s = .ok p) := by
  refine ⟨fun s hws h => f3_wrong_length_error s hws h, fun s hws h => ?_, fun s hws h1 h2 => ?_⟩
  · have hn : pyFromHex s = none := (pyFromHex_eq_none_iff s).mpr h
    constructor <;>
      simp [F1Property.from_hex, F2Property.from_hex, pyStrip_id s hws, hn]
  · have hn : pyFromHex s ≠ none := fun hnone => by
      rcases (pyFromHex_eq_none_iff s).mp hnone with h | ⟨c, hm, hv⟩
      · omega
      · exact h2 c hm hv
    cases hsome : pyFromHex s with
    | none => exact absurd hsome hn
    | some bs =>
      exact ⟨⟨⟨intFromBytesBE (pySlice bs 3 4), intFromBytesBE (pySlice bs 4 5),
          intFromBytesLE (pySlice bs 28 30)⟩,
          by simp [F1Property.from_hex, pyStrip_id s hws, hsome]⟩,
        ⟨⟨QualityLevel.parse (intFromBytesBE (pySlice bs 17 18)),
          QualityLevel.parse (intFromBytesBE (pySlice bs 15 16)),
          QualityLevel.parse (intFromBytesBE (pySlice bs 14 15)),
          WaterContainerState.parse (intFromBytesBE (pySlice bs 18 19))⟩,
          by simp [F2Property.from_hex, pyStrip_id s hws, hsome]⟩⟩

/-- C3 (amended, witness): the F3 length check fires on the 4-character
input `"0102"`, while the 2-character valid-hex input `"ff"` — also a
"wrong" length — decodes without error under F1 and F2. -/
theorem property_decoders_length_validation_witness :
    F3Property.from_hex (hs "0102") = .error (.invalidBlobLength 4)
    ∧ ((∃ p, F1Property.from_hex (hs "ff") = .ok p)
        ∧ ∃ p, F2Property.from_hex (hs "ff") = .ok p) :=
  ⟨property_decoders_length_validation.1 (hs "0102") (by decide) (by decide),
    property_decoders_length_validation.2.2 (hs "ff") (by decide) (by decide)
      (by decide)⟩

/-- C7: `F3Property.from_hex` fails with the length error on every
whitespace-free input whose length is not exactly 54, and decoding the blob
built by each concrete `DeviceStatusCommand` recovers exactly the state that
was encoded (with every other field decoding to its all-zero `OFF` code):
mode at field-area position 0, power at 18, humidification at 22, child lock
at 28, LED brightness at 44, mirroring the encode side. -/
theorem f3_decode_encode_symmetry :
    (∀ s, noWS s → s.length ≠ 54 → ∃ e, F3Property.from_hex s = .error e)
    ∧ (∀ m : OperatingMode,
        (DeviceCmd.changeMode m).build_payload >>= F3Property.from_hex
          = .ok ⟨m, .OFF, .OFF, .OFF, .OFF⟩)
    ∧ (∀ st : HumidificationState,
        (DeviceCmd.humidification st).build_payload >>= F3Property.from_hex
          = .ok ⟨.OFF, st, .OFF, .OFF, .OFF⟩)
    ∧ (∀ st : PowerState,
        (DeviceCmd.powerState st).build_payload >>= F3Property.from_hex
          = .ok ⟨.OFF, .OFF, st, .OFF, .OFF⟩)
    ∧ (∀ st : ChildLockState,
        (DeviceCmd.childLock st).build_payload >>= F3Property.from_hex
          = .ok ⟨.OFF, .OFF, .OFF, st, .OFF⟩)
    ∧ (∀ st : LEDBrightnessState,
        (DeviceCmd.ledBrightness st).build_payload >>= F3Property.from_hex
          = .ok ⟨.OFF, .OFF, .OFF, .OFF, st⟩) :=
  ⟨fun s hws h => ⟨_, f3_wrong_length_error s hws h⟩,
    fun m => by cases m <;> decide,
    fun st => by cases st <;> decide,
    fun st => by cases st <;> decide,
    fun st => by cases st <;> decide,
    fun st => by cases st <;> decide⟩

/-- C7 (witness): the length error instantiated at the 2-character input
`"00"`. -/
theorem f3_decode_encode_symmetry_witness :
    ∃ e, F3Property.from_hex (hs "00") = .error e :=
  f3_decode_encode_symmetry.1 (hs "00") (by decide) (by decide)

/-- C10: for every 54-character whitespace-free input, `F3Property.from_hex`
fails exactly when the 2-character code at one of the decoded field-area
positions (0, 18, 22, 28, 44) is not the value of any member of the
corresponding enumeration — a well-formed length alone is not sufficient
for a successful decode. -/
theorem f3_invalid_code_error (s : List Char) (h54 : s.length = 54) (hws : noWS s) :
    (∃ e, F3Property.from_hex s = .error e) ↔
      ¬((∃ m : OperatingMode, m.value = pySlice (s.drop 8) 0 2)
        ∧ (∃ m : PowerState, m.value = pySlice (s.drop 8) 18 20)
        ∧ (∃ m : HumidificationState, m.value = pySlice (s.drop 8) 22 24)
        ∧ (∃ m : ChildLockState, m.value = pySlice (s.drop 8) 28 30)
        ∧ (∃ m : LEDBrightnessState, m.value = pySlice (s.drop 8) 44 46)) := by
  rw [← operatingMode_fromCode_isSome, ← powerState_fromCode_isSome,
    ← humidificationState_fromCode_isSome, ← childLockState_fromCode_isSome,
    ← ledBrightnessState_fromCode_isSome]
  simp only [F3Property.from_hex, pyStrip_id s hws]
  rw [if_neg (by omega)]
  cases h1 : OperatingMode.fromCode (pySlice (s.drop 8) 0 2) <;>
    cases h2 : HumidificationState.fromCode (pySlice (s.drop 8) 22 24) <;>
    cases h3 : PowerState.fromCode (pySlice (s.drop 8) 18 20) <;>
    cases h4 : ChildLockState.fromCode (pySlice (s.drop 8) 28 30) <;>
    cases h5 : LEDBrightnessState.fromCode (pySlice (s.drop 8) 44 46) <;>
    simp [h1, h2, h3, h4, h5]

/-- C10 (witness): a 54-character blob whose operating-mode code is the
non-member `"ZZ"` is rejected. -/
theorem f3_invalid_code_error_witness :
    ∃ e, F3Property.from_hex
      (hs "00000000ZZ00000000000000000000000000000000000000000000") = .error e :=
  (f3_invalid_code_error
    (hs "00000000ZZ00000000000000000000000000000000000000000000")
    (by decide) (by decide)).mpr (by decide)

end Sharp
